import Mathlib

/-!
Verification of the query-time search pipeline of the book-restaurant-agent
repository: query normalization/translation (`translation_service.py`),
vector search orchestration, manual post-filtering and response formatting
(`restaurant_search.py`).

The embedding model and the vector index are external capabilities; they are
modelled as step functions returning `Except String _` (an `Except.error`
models a raised exception).  Machine floats (star ratings, similarity scores)
are modelled as rationals: the source only compares them, never does float
arithmetic, and the dataset values are exactly representable.
-/

/-- A record payload stored in the vector index, as read back by
`_apply_manual_filters` and `format_restaurant_response` via `payload.get`.
Every field is optional because a Python dict may lack any key; `Option.getD`
models `payload.get(key, default)` and a bare `Option` models
`payload.get(key)` (which yields `None` when the key is missing). -/
structure Payload where
  name : Option String := none
  restaurant_id : Option String := none
  categories : Option (List String) := none
  city : Option String := none
  address : Option String := none
  stars : Option ℚ := none
  review_count : Option Nat := none
  good_for_kids : Option Bool := none
  dogs_allowed : Option Bool := none
deriving DecidableEq, Repr

/-- A scored hit returned by the vector index (`result.payload`,
`result.score`); `search_restaurants` returns the payload with the score
attached, which carries the same data. -/
structure ScoredResult where
  payload : Payload
  score : ℚ
deriving DecidableEq, Repr

/-- `SearchFilters` dataclass of `restaurant_search.py`: every field defaults
to `None`. -/
structure SearchFilters where
  location : Option String := none
  categories : Option (List String) := none
  min_stars : Option ℚ := none
  good_for_kids : Option Bool := none
  dogs_allowed : Option Bool := none
  price_range : Option String := none
deriving DecidableEq, Repr

/-- Python `needle in hay` on strings: contiguous-substring test. -/
def strContainsSubstr (hay needle : String) : Bool :=
  decide (needle.toList <:+: hay.toList)

/-- Python truthiness of an optional string (`None` and `""` are falsy). -/
def truthyStr : Option String → Bool
  | none => false
  | some s => s != ""

/-- Python truthiness of an optional number (`None` and `0.0` are falsy). -/
def truthyRat : Option ℚ → Bool
  | none => false
  | some q => q != 0

/-- Python truthiness of an optional list (`None` and `[]` are falsy). -/
def truthyList : Option (List String) → Bool
  | none => false
  | some l => !l.isEmpty

/-! ## translation_service.py -/

/-- `TranslationService.is_korean_text`: the regex `[가-힣]+` searches for any
character in the Hangul-syllable range U+AC00 (가) to U+D7A3 (힣). -/
def is_korean_text (text : String) : Bool :=
  text.toList.any fun c => 0xAC00 ≤ c.toNat && c.toNat ≤ 0xD7A3

/-- The `KOREAN_FOOD_PATTERNS` table of `_pattern_based_translation`, in
source (insertion) order.  Each regex in the source is an alternation of
literal tokens, modelled as the list of its alternatives paired with the
English expansion. -/
def KOREAN_FOOD_PATTERNS : List (List String × String) := [
  (["중국", "중식", "짜장", "짬뽕", "탕수육", "마파두부", "궁보", "딤섬", "중식집", "중국집", "중국관"], "chinese food restaurant"),
  (["일본", "일식", "스시", "사시미", "라멘", "우동", "소바", "돈까스", "규동", "사케", "일식집", "일본집"], "japanese sushi ramen restaurant"),
  (["이탈리아", "양식", "파스타", "피자", "리조또", "스파게티", "이탈리아식", "양식집"], "italian pasta pizza restaurant"),
  (["태국", "태식", "팟타이", "똠양꿍", "그린커리", "팬센", "태국식"], "thai food restaurant"),
  (["인도", "인도식", "커리", "난", "탄두리", "바스마티"], "indian curry restaurant"),
  (["베트남", "월남", "쌀국수", "분짜", "반미"], "vietnamese pho restaurant"),
  (["멕시코", "멕시칸", "타코", "부리또", "케사디야", "나초"], "mexican taco burrito restaurant"),
  (["한국", "한식", "김치", "불고기", "갈비", "비빔밥", "냉면", "삼겹살", "한식집"], "korean bbq restaurant"),
  (["프랑스", "프렌치", "에스카르고", "크로아상"], "french restaurant"),
  (["스페인", "스패니시", "파에야", "타파스"], "spanish restaurant"),
  (["피자", "피자집"], "pizza restaurant"),
  (["햄버거", "버거", "버거집"], "burger hamburger restaurant"),
  (["치킨", "닭", "프라이드", "치킨집"], "chicken fried restaurant"),
  (["스테이크", "소고기", "스테이크하우스"], "steak beef steakhouse"),
  (["바베큐", "바비큐", "BBQ", "구이"], "barbecue bbq grilled restaurant"),
  (["해산물", "생선", "새우", "랍스터", "조개", "회", "횟집"], "seafood fish restaurant"),
  (["샐러드", "야채", "채식"], "salad vegetarian restaurant"),
  (["카페", "커피", "에스프레소", "라떼", "아메리카노", "커피숍"], "cafe coffee shop"),
  (["술집", "바", "맥주", "와인", "칵테일", "호프", "주점"], "bar pub beer wine cocktail"),
  (["패스트푸드", "패패", "패스트"], "fast food restaurant"),
  (["뷔페", "부페", "올유캔잇"], "buffet all you can eat restaurant"),
  (["아침", "모닝", "브런치"], "breakfast brunch morning restaurant"),
  (["점심", "런치"], "lunch restaurant"),
  (["저녁", "디너", "만찬"], "dinner evening restaurant"),
  (["야식", "새벽", "밤"], "late night restaurant"),
  (["추천해", "추천해줘", "알려줘", "찾아줘", "검색해", "추천받고싶어"], "recommend find search"),
  (["맛있는", "맛좋은", "맛집"], "delicious tasty good popular restaurant"),
  (["좋은", "괜찮은"], "good restaurant"),
  (["최고", "베스트"], "best excellent restaurant"),
  (["먹고싶어", "먹을", "드시고"], "eat food restaurant"),
  (["가고싶어", "가서", "갈만한"], "go visit restaurant"),
  (["가족", "아이", "어린이", "키즈"], "family kids children friendly restaurant"),
  (["데이트", "로맨틱", "커플"], "romantic date couple restaurant"),
  (["조용", "정적", "차분"], "quiet peaceful restaurant"),
  (["분위기", "무드", "감성"], "atmosphere ambiance mood restaurant"),
  (["저렴", "싸", "가성비", "가격"], "cheap affordable budget restaurant"),
  (["고급", "비싼", "프리미엄", "럭셔리"], "expensive premium upscale fine dining restaurant")]

/-- `re.search(pattern, text, re.IGNORECASE)` for an alternation of literal
tokens: some alternative occurs in `text` as a substring, case-insensitively
(only the ASCII token `BBQ` is case-sensitive in the source table, so
lowercasing both sides models `IGNORECASE`). -/
def regex_search_any (alternatives : List String) (text : String) : Bool :=
  alternatives.any fun alt => strContainsSubstr text.toLower alt.toLower

/-- `TranslationService._pattern_based_translation`.  Every matching rule
contributes its expansion; if any rule matched, the result is
`f"{text} {' '.join(unique_translations)}"`, else `text` unchanged.
The source's `remaining_text` accumulator is dead code (computed, never
used).  The source deduplicates via a Python `set`, whose iteration order is
unspecified; the model fixes `List.dedup` order, which no claim depends on.
The expansions contain single spaces only, so splitting the joined string on
a single space agrees with Python `str.split()`. -/
def pattern_based_translation (text : String) : String :=
  let translated_parts :=
    (KOREAN_FOOD_PATTERNS.filter fun rule => regex_search_any rule.1 text).map Prod.snd
  if translated_parts.isEmpty then text
  else
    let unique_translations := ((" ".intercalate translated_parts).splitOn " ").dedup
    text ++ " " ++ " ".intercalate unique_translations

/-- `TranslationService.translate_korean_to_english`.  The optional
model-backed translator is a step function: `Except.ok t` models a successful
pipeline call returning a non-empty result list with `translation_text = t`;
`Except.error` models a raised exception or an empty result list, both of
which fall through to the pattern-based fallback.  Python
`not korean_text.strip()` (all-whitespace test) is modelled by
`List.all Char.isWhitespace`. -/
def translate_korean_to_english (translator : Option (String → Except String String))
    (korean_text : String) : String :=
  if korean_text == "" || korean_text.toList.all Char.isWhitespace then korean_text
  else
    match translator with
    | some model =>
      match model korean_text with
      | Except.ok translated => translated
      | Except.error _ => pattern_based_translation korean_text
    | none => pattern_based_translation korean_text

/-- Module-level `translate_korean_query`: translate only when the text
contains Korean characters, else return the query unchanged. -/
def translate_korean_query (translator : Option (String → Except String String))
    (query : String) : String :=
  if is_korean_text query then translate_korean_to_english translator query
  else query

/-! ## restaurant_search.py -/

/-- The per-candidate predicate of
`RestaurantSearchService._apply_manual_filters`: the loop body keeps a result
iff none of its five `continue` guards fires; each conjunct below is the
negation of one guard, transliterated (`payload.get('city', '')` becomes
`payload.city.getD ""`, `payload.get('good_for_kids')` stays an `Option`
compared against the filter value, so a missing key compares unequal to any
set boolean, exactly like Python `None != b`). -/
def keep_result (filters : SearchFilters) (payload : Payload) : Bool :=
  !(truthyStr filters.location &&
      !strContainsSubstr (payload.city.getD "") (filters.location.getD "")) &&
  !(truthyRat filters.min_stars &&
      decide (payload.stars.getD 0 < filters.min_stars.getD 0)) &&
  !(truthyList filters.categories &&
      !((filters.categories.getD []).any fun cat =>
          (payload.categories.getD []).contains cat)) &&
  !(filters.good_for_kids.isSome && payload.good_for_kids != filters.good_for_kids) &&
  !(filters.dogs_allowed.isSome && payload.dogs_allowed != filters.dogs_allowed)

/-- `RestaurantSearchService._apply_manual_filters`: the append-loop over
`results` builds exactly the stable filter by `keep_result`. -/
def apply_manual_filters (results : List ScoredResult) (filters : SearchFilters) :
    List ScoredResult :=
  results.filter fun result => keep_result filters result.payload

/-- The embedding vector produced by `self.model.encode`; its contents are
opaque to the pipeline, which only passes it to the index query. -/
abbrev EmbeddingVector : Type := List ℚ

/-- `RestaurantSearchService.search_restaurants`.  The three pipeline steps
executed inside the `try` block — `translate_korean_query`, `model.encode`
and `client.search` — are step functions in which `Except.error` models a
raised exception; the `except Exception` handler is the outer `match`, which
converts any step failure into `[]`.  On success the code filters (when
`filters` is provided), truncates to `limit` with `filtered_results[:limit]`,
and returns the payloads with scores attached (a `ScoredResult` carries the
same data). -/
def search_restaurants
    (translateStep : String → Except String String)
    (embedStep : String → Except String EmbeddingVector)
    (qdrantSearch : EmbeddingVector → Nat → Except String (List ScoredResult))
    (query : String) (filters : Option SearchFilters) (limit : Nat) :
    List ScoredResult :=
  match (do
    let enhanced_query ← translateStep query
    let query_embedding ← embedStep enhanced_query
    let search_results ← qdrantSearch query_embedding (limit * 2)
    let filtered_results :=
      match filters with
      | some f => apply_manual_filters search_results f
      | none => search_results
    pure (filtered_results.take limit) : Except String (List ScoredResult)) with
  | Except.ok results => results
  | Except.error _ => []

/-- `search_restaurants` as actually dispatched by the service: the
translation step is the concrete `translate_korean_query`, which never
raises (its internal model-translation failures fall back to the pattern
table). -/
def search_restaurants_service (translator : Option (String → Except String String))
    (embedStep : String → Except String EmbeddingVector)
    (qdrantSearch : EmbeddingVector → Nat → Except String (List ScoredResult))
    (query : String) (filters : Option SearchFilters) (limit : Nat) :
    List ScoredResult :=
  search_restaurants (fun q => Except.ok (translate_korean_query translator q))
    embedStep qdrantSearch query filters limit

/-- A chat display item produced by `format_restaurant_response`:
`message` models `{"type": "Message", "text": ...}` and `restaurantOption`
models `{"type": "Restaurant Option", "title": ..., "id": ...,
"description": ...}`. -/
inductive DisplayItem where
  | message (text : String)
  | restaurantOption (title : String) (id : String) (description : String)
deriving DecidableEq, Repr

/-- `format_restaurant_response`: empty input yields the single no-matches
message; otherwise an intro message stating the count, then the append-loop
adds one option item per restaurant whose description is
`f"{categories} · ⭐{stars} ({review_count}개 리뷰)"`, with
`f" · {address}, {city}"` appended only when `address` and `city` are both
truthy (non-empty). -/
def format_restaurant_response (restaurants : List Payload) : List DisplayItem :=
  if restaurants.isEmpty then
    [DisplayItem.message "죄송합니다. 조건에 맞는 레스토랑을 찾을 수 없습니다."]
  else
    restaurants.foldl
      (fun response restaurant =>
        let categories := ", ".intercalate (restaurant.categories.getD [])
        let stars := restaurant.stars.getD 0
        let review_count := restaurant.review_count.getD 0
        let address := restaurant.address.getD ""
        let city := restaurant.city.getD ""
        let description :=
          categories ++ " · ⭐" ++ toString stars ++ " (" ++ toString review_count ++ "개 리뷰)"
        let description :=
          if address != "" && city != "" then
            description ++ " · " ++ address ++ ", " ++ city
          else description
        response ++ [DisplayItem.restaurantOption (restaurant.name.getD "")
          (restaurant.restaurant_id.getD "") description])
      [DisplayItem.message ("추천 레스토랑 " ++ toString restaurants.length ++ "곳을 찾았습니다:")]

/-! ## Theorems -/

/-- C5: for every candidate list and filters, `_apply_manual_filters` returns
an order-preserving subsequence of its input (a stable filter), never longer
than the input. -/
theorem apply_filters_stable_subsequence (results : List ScoredResult)
    (filters : SearchFilters) :
    List.Sublist (apply_manual_filters results filters) results ∧
    (apply_manual_filters results filters).length ≤ results.length :=
  ⟨List.filter_sublist results, List.length_filter_le _ results⟩

/-- C6: for every pipeline instantiation, query, filters value and limit, the
list returned by `search_restaurants` has length at most `limit`. -/
theorem search_result_length_le_limit
    (translateStep : String → Except String String)
    (embedStep : String → Except String EmbeddingVector)
    (qdrantSearch : EmbeddingVector → Nat → Except String (List ScoredResult))
    (query : String) (filters : Option SearchFilters) (limit : Nat) :
    (search_restaurants translateStep embedStep qdrantSearch query filters limit).length
      ≤ limit := by
  unfold search_restaurants
  cases h1 : translateStep query with
  | error e => simp [Bind.bind, Except.bind]
  | ok nq =>
    cases h2 : embedStep nq with
    | error e => simp [h2, Bind.bind, Except.bind, Functor.map, Except.map]
    | ok v =>
      cases h3 : qdrantSearch v (limit * 2) with
      | error e => simp [h2, h3, Bind.bind, Except.bind, Functor.map, Except.map]
      | ok search_results =>
        cases filters with
        | none =>
          simp [h2, h3, Bind.bind, Except.bind, Functor.map, Except.map,
            pure, Except.pure]
        | some f =>
          simp [h2, h3, Bind.bind, Except.bind, Functor.map, Except.map,
            pure, Except.pure]

/-- C7: a query with no Korean (Hangul-syllable) characters is returned
unchanged by `translate_korean_query`, for any state of the model-backed
translator. -/
theorem translate_identity_on_non_korean
    (translator : Option (String → Except String String)) (q : String)
    (h : is_korean_text q = false) :
    translate_korean_query translator q = q := by
  simp [translate_korean_query, h]

/-- Witness for C7 at the concrete English query from the repository's
translation test. -/
theorem translate_identity_on_non_korean_witness :
    is_korean_text "Korean BBQ" = false ∧
    translate_korean_query none "Korean BBQ" = "Korean BBQ" :=
  ⟨by decide, translate_identity_on_non_korean none "Korean BBQ" (by decide)⟩

/-- C9: explicitly setting a falsy filter value (`min_stars = 0.0`,
`location = ""`, `categories = []`) gives the same filtered list as leaving
the field unset: the truthiness guards in `_apply_manual_filters` impose no
constraint, so in particular `categories = []` does not exclude every
candidate. -/
theorem falsy_filter_fields_impose_no_constraint (results : List ScoredResult)
    (f : SearchFilters) :
    apply_manual_filters results { f with min_stars := some 0 } =
      apply_manual_filters results { f with min_stars := none } ∧
    apply_manual_filters results { f with location := some "" } =
      apply_manual_filters results { f with location := none } ∧
    apply_manual_filters results { f with categories := some [] } =
      apply_manual_filters results { f with categories := none } := by
  refine ⟨?_, ?_, ?_⟩ <;>
    simp [apply_manual_filters, keep_result, truthyRat, truthyStr, truthyList]

/-- C10: `price_range` is declared on `SearchFilters` but read by no
filtering or search operation, so results are identical across any two
values of the field. -/
theorem price_range_never_read (results : List ScoredResult) (f : SearchFilters)
    (pr1 pr2 : Option String)
    (translateStep : String → Except String String)
    (embedStep : String → Except String EmbeddingVector)
    (qdrantSearch : EmbeddingVector → Nat → Except String (List ScoredResult))
    (query : String) (limit : Nat) :
    apply_manual_filters results { f with price_range := pr1 } =
      apply_manual_filters results { f with price_range := pr2 } ∧
    search_restaurants translateStep embedStep qdrantSearch query
        (some { f with price_range := pr1 }) limit =
      search_restaurants translateStep embedStep qdrantSearch query
        (some { f with price_range := pr2 }) limit :=
  ⟨rfl, rfl⟩

/-- C1: if any pipeline step inside the `try` block of `search_restaurants`
(translation, embedding, or vector-index query) raises, the function returns
`[]`; the exception never reaches the caller (the return type carries no
error at all). -/
theorem search_degrades_to_empty_on_error
    (translateStep : String → Except String String)
    (embedStep : String → Except String EmbeddingVector)
    (qdrantSearch : EmbeddingVector → Nat → Except String (List ScoredResult))
    (query : String) (filters : Option SearchFilters) (limit : Nat)
    (h : (∃ e, translateStep query = Except.error e) ∨
      (∃ nq e, translateStep query = Except.ok nq ∧ embedStep nq = Except.error e) ∨
      (∃ nq v e, translateStep query = Except.ok nq ∧ embedStep nq = Except.ok v ∧
        qdrantSearch v (limit * 2) = Except.error e)) :
    search_restaurants translateStep embedStep qdrantSearch query filters limit = [] := by
  unfold search_restaurants
  obtain ⟨e, he⟩ | ⟨nq, e, h1, he⟩ | ⟨nq, v, e, h1, h2, he⟩ := h
  · simp [he, Bind.bind, Except.bind]
  · simp [h1, he, Bind.bind, Except.bind, Functor.map, Except.map]
  · simp [h1, h2, he, Bind.bind, Except.bind, Functor.map, Except.map]

/-- Witness for C1: a translation step that raises makes the search return
the empty list. -/
theorem search_degrades_to_empty_on_error_witness :
    search_restaurants (fun _ => Except.error "translation failed")
      (fun _ => Except.ok []) (fun _ _ => Except.ok []) "피자 추천해줘" none 5 = [] :=
  search_degrades_to_empty_on_error _ _ _ _ _ _ (Or.inl ⟨"translation failed", rfl⟩)

/-- C3: the empty query contains no Korean characters, so it reaches the
embedding step unchanged; under the spec's EmbeddingProvider contract
(modelled here as the hypothesis that the embedding step raises on input
that is empty after trimming), `search_restaurants("", None, 3)` returns
`[]`. -/
theorem empty_query_search_returns_empty
    (translator : Option (String → Except String String))
    (embedStep : String → Except String EmbeddingVector)
    (qdrantSearch : EmbeddingVector → Nat → Except String (List ScoredResult))
    (hembed : ∀ s, s.toList.all Char.isWhitespace = true →
      ∃ e, embedStep s = Except.error e) :
    search_restaurants_service translator embedStep qdrantSearch "" none 3 = [] := by
  have htr : translate_korean_query translator "" = "" := by
    simp [translate_korean_query, is_korean_text]
  obtain ⟨e, he⟩ := hembed "" (by decide)
  simp [search_restaurants_service, search_restaurants, htr, he,
    Bind.bind, Except.bind, Functor.map, Except.map]

/-- Witness for C3 with a concrete embedding step that rejects whitespace
input. -/
theorem empty_query_search_returns_empty_witness :
    search_restaurants_service none
      (fun s => if s.toList.all Char.isWhitespace then Except.error "empty input"
                else Except.ok [])
      (fun _ _ => Except.ok []) "" none 3 = [] :=
  empty_query_search_returns_empty none _ _
    (fun s hs => ⟨"empty input", by rw [hs]; rfl⟩)

/-- Helper for the amended C2: the pattern-based fallback always returns the
original text, possibly extended — so the original text's characters are an
initial segment of the output. -/
theorem pattern_translation_keeps_text_initial (text : String) :
    text.toList <+: (pattern_based_translation text).toList := by
  unfold pattern_based_translation
  by_cases hp : ((KOREAN_FOOD_PATTERNS.filter fun rule =>
      regex_search_any rule.1 text).map Prod.snd).isEmpty
  · simp [hp]
  · simp only [hp]
    have h2 : (text ++ " " ++ " ".intercalate (((" ".intercalate ((KOREAN_FOOD_PATTERNS.filter
        fun rule => regex_search_any rule.1 text).map Prod.snd)).splitOn " ").dedup)).toList
        = text.toList ++ (" " ++ " ".intercalate (((" ".intercalate ((KOREAN_FOOD_PATTERNS.filter
        fun rule => regex_search_any rule.1 text).map Prod.snd)).splitOn " ").dedup)).toList := by
      simp [String.toList, String.data_append]
    simp only [Bool.false_eq_true, if_false, h2]
    exact List.prefix_append _ _

/-- Counterexample to C2 as stated: when the model-backed translator is
loaded and succeeds, `translate_korean_to_english` returns the model's
`translation_text` verbatim, which need not start with the original query.
Here a translator mapping the Korean pizza query to English produces an
output that does not have the original query as an initial segment. -/
theorem model_translation_drops_original_query :
    translate_korean_query (some fun _ => Except.ok "pizza restaurant") "피자 추천해줘"
      = "pizza restaurant" ∧
    ¬ ("피자 추천해줘".toList <+: "pizza restaurant".toList) := by
  exact ⟨rfl, by decide⟩

/-- Amended C2: whenever the model-backed translation does not succeed on
the query (translator unavailable, raising, or returning an empty result),
`translate_korean_query` returns a string that starts with the original
query — the pattern-based fallback only ever appends expansion tokens, and
non-Korean queries are returned unchanged. -/
theorem fallback_translation_keeps_query_initial
    (translator : Option (String → Except String String)) (q : String)
    (h : ∀ model, translator = some model → ∀ t, model q ≠ Except.ok t) :
    q.toList <+: (translate_korean_query translator q).toList := by
  by_cases hk : is_korean_text q = true
  · have step : translate_korean_query translator q = translate_korean_to_english translator q := by
      simp [translate_korean_query, hk]
    rw [step]
    unfold translate_korean_to_english
    by_cases hws : (q == "" || q.toList.all Char.isWhitespace) = true
    · rw [if_pos hws]
    · rw [if_neg hws]
      cases htr : translator with
      | none => exact pattern_translation_keeps_text_initial q
      | some model =>
        cases hm : model q with
        | ok t => exact absurd hm (h model htr t)
        | error e => simp only [hm]; exact pattern_translation_keeps_text_initial q
  · have hk2 : is_korean_text q = false := by simpa using hk
    simp [translate_korean_query, hk2]

/-- Witness for the amended C2 at the repository's Korean pizza query with
no model translator loaded. -/
theorem fallback_translation_keeps_query_initial_witness :
    "피자 추천해줘".toList <+: (translate_korean_query none "피자 추천해줘").toList :=
  fallback_translation_keeps_query_initial none "피자 추천해줘"
    (fun _ hm => nomatch hm)

/-- C4: every candidate kept by `_apply_manual_filters` satisfies every set
constraint — the city (defaulting to `""` when missing) contains the
location string as a substring, the star rating (defaulting to 0) is at
least `min_stars` whenever that bound is effective (non-zero, per the
source's truthiness guard), some required category occurs among the
candidate's categories (match-any, defaulting to `[]`), and each set boolean
flag equals the candidate's flag (defaulting to `false`) exactly.  The
filter is a total function, so it never raises. -/
theorem surviving_candidates_satisfy_filters
    (filters : SearchFilters) (results : List ScoredResult) (r : ScoredResult)
    (hr : r ∈ apply_manual_filters results filters) :
    (∀ loc, filters.location = some loc →
        loc.toList <:+: (r.payload.city.getD "").toList) ∧
    (∀ m, filters.min_stars = some m → m ≠ 0 → m ≤ r.payload.stars.getD 0) ∧
    (∀ cats, filters.categories = some cats → cats ≠ [] →
        ∃ cat ∈ cats, cat ∈ r.payload.categories.getD []) ∧
    (∀ b, filters.good_for_kids = some b → r.payload.good_for_kids.getD false = b) ∧
    (∀ b, filters.dogs_allowed = some b → r.payload.dogs_allowed.getD false = b) := by
  have hk : keep_result filters r.payload = true := (List.mem_filter.mp hr).2
  simp only [keep_result, Bool.and_eq_true, Bool.not_eq_true'] at hk
  obtain ⟨⟨⟨⟨h1, h2⟩, h3⟩, h4⟩, h5⟩ := hk
  refine ⟨?_, ?_, ?_, ?_, ?_⟩
  · intro loc hloc
    rw [hloc] at h1
    rcases Bool.and_eq_false_iff.mp h1 with hA | hA
    · have hempty : loc = "" := by simpa [truthyStr] using hA
      subst hempty
      exact List.nil_infix
    · simpa [strContainsSubstr] using hA
  · intro m hm hm0
    rw [hm] at h2
    rcases Bool.and_eq_false_iff.mp h2 with hA | hA
    · exact absurd (by simpa [truthyRat] using hA) hm0
    · exact not_lt.mp (by simpa using hA)
  · intro cats hc hcne
    rw [hc] at h3
    rcases Bool.and_eq_false_iff.mp h3 with hA | hA
    · exact absurd (by simpa [truthyList] using hA) hcne
    · have hany : (cats.any fun cat =>
          (r.payload.categories.getD []).contains cat) = true := by simpa using hA
      obtain ⟨cat, hmem, hcont⟩ := List.any_eq_true.mp hany
      exact ⟨cat, hmem, by simpa using hcont⟩
  · intro b hb
    rw [hb] at h4
    rcases Bool.and_eq_false_iff.mp h4 with hA | hA
    · simp at hA
    · have heq : r.payload.good_for_kids = some b := by simpa using hA
      simp [heq]
  · intro b hb
    rw [hb] at h5
    rcases Bool.and_eq_false_iff.mp h5 with hA | hA
    · simp at hA
    · have heq : r.payload.dogs_allowed = some b := by simpa using hA
      simp [heq]

/-- A fully constrained filter for the C4 witness. -/
def sample_filters : SearchFilters :=
  { location := some "Santa", min_stars := some 4, categories := some ["Pizza"],
    good_for_kids := some true, dogs_allowed := some false }

/-- The payload of a candidate passing `sample_filters`, for the C4 witness. -/
def sample_payload : Payload :=
  { name := some "Tony Pizza", restaurant_id := some "r1",
    categories := some ["Pizza", "Italian"], city := some "Santa Barbara",
    address := some "123 State St", stars := some 5, review_count := some 10,
    good_for_kids := some true, dogs_allowed := some false }

/-- A candidate passing `sample_filters`, for the C4 witness. -/
def sample_result : ScoredResult :=
  { payload := sample_payload, score := 1 }

/-- Witness for C4 at a concrete surviving candidate. -/
theorem surviving_candidates_satisfy_filters_witness :
    sample_result ∈ apply_manual_filters [sample_result] sample_filters ∧
    ((∀ loc, sample_filters.location = some loc →
        loc.toList <:+: (sample_result.payload.city.getD "").toList) ∧
    (∀ m, sample_filters.min_stars = some m → m ≠ 0 →
        m ≤ sample_result.payload.stars.getD 0) ∧
    (∀ cats, sample_filters.categories = some cats → cats ≠ [] →
        ∃ cat ∈ cats, cat ∈ sample_result.payload.categories.getD []) ∧
    (∀ b, sample_filters.good_for_kids = some b →
        sample_result.payload.good_for_kids.getD false = b) ∧
    (∀ b, sample_filters.dogs_allowed = some b →
        sample_result.payload.dogs_allowed.getD false = b)) :=
  ⟨by decide, surviving_candidates_satisfy_filters sample_filters [sample_result]
    sample_result (by decide)⟩

/-- Closed form of the append-loop of `format_restaurant_response`: folding
the option-item builder over the restaurants appends one option item per
restaurant, in order, after the initial items. -/
theorem format_loop_eq_map (restaurants : List Payload) (init : List DisplayItem) :
    restaurants.foldl
      (fun response restaurant =>
        let categories := ", ".intercalate (restaurant.categories.getD [])
        let stars := restaurant.stars.getD 0
        let review_count := restaurant.review_count.getD 0
        let address := restaurant.address.getD ""
        let city := restaurant.city.getD ""
        let description :=
          categories ++ " · ⭐" ++ toString stars ++ " (" ++ toString review_count ++ "개 리뷰)"
        let description :=
          if address != "" && city != "" then
            description ++ " · " ++ address ++ ", " ++ city
          else description
        response ++ [DisplayItem.restaurantOption (restaurant.name.getD "")
          (restaurant.restaurant_id.getD "") description])
      init
    = init ++ restaurants.map (fun restaurant =>
        DisplayItem.restaurantOption (restaurant.name.getD "")
          (restaurant.restaurant_id.getD "")
          (let description :=
            ", ".intercalate (restaurant.categories.getD []) ++ " · ⭐" ++
              toString (restaurant.stars.getD 0) ++ " (" ++
              toString (restaurant.review_count.getD 0) ++ "개 리뷰)"
           if restaurant.address.getD "" != "" && restaurant.city.getD "" != "" then
             description ++ " · " ++ restaurant.address.getD "" ++ ", " ++
               restaurant.city.getD ""
           else description)) := by
  induction restaurants generalizing init with
  | nil => simp
  | cons x xs ih =>
    rw [List.foldl_cons, ih, List.map_cons]
    simp [List.append_assoc]

/-- C8: `format_restaurant_response` maps the empty result list to exactly
one no-matches message; a non-empty list of N restaurants maps to exactly
N + 1 items — one intro message stating the count, then one option item per
restaurant in order, whose description is the comma-joined categories, the
rating and the review count, with the address/city suffix appended only when
both address and city are non-empty.  The function is total by
construction. -/
theorem format_response_structure (restaurants : List Payload) :
    (restaurants = [] → format_restaurant_response restaurants =
      [DisplayItem.message "죄송합니다. 조건에 맞는 레스토랑을 찾을 수 없습니다."]) ∧
    (restaurants ≠ [] →
      format_restaurant_response restaurants =
        DisplayItem.message
            ("추천 레스토랑 " ++ toString restaurants.length ++ "곳을 찾았습니다:") ::
          restaurants.map (fun restaurant =>
            DisplayItem.restaurantOption (restaurant.name.getD "")
              (restaurant.restaurant_id.getD "")
              (let description :=
                ", ".intercalate (restaurant.categories.getD []) ++ " · ⭐" ++
                  toString (restaurant.stars.getD 0) ++ " (" ++
                  toString (restaurant.review_count.getD 0) ++ "개 리뷰)"
               if restaurant.address.getD "" != "" && restaurant.city.getD "" != "" then
                 description ++ " · " ++ restaurant.address.getD "" ++ ", " ++
                   restaurant.city.getD ""
               else description)) ∧
      (format_restaurant_response restaurants).length = restaurants.length + 1) := by
  constructor
  · intro h
    subst h
    rfl
  · intro h
    have hne : restaurants.isEmpty = false := by simpa using h
    have hmain : format_restaurant_response restaurants =
        DisplayItem.message
            ("추천 레스토랑 " ++ toString restaurants.length ++ "곳을 찾았습니다:") ::
          restaurants.map (fun restaurant =>
            DisplayItem.restaurantOption (restaurant.name.getD "")
              (restaurant.restaurant_id.getD "")
              (let description :=
                ", ".intercalate (restaurant.categories.getD []) ++ " · ⭐" ++
                  toString (restaurant.stars.getD 0) ++ " (" ++
                  toString (restaurant.review_count.getD 0) ++ "개 리뷰)"
               if restaurant.address.getD "" != "" && restaurant.city.getD "" != "" then
                 description ++ " · " ++ restaurant.address.getD "" ++ ", " ++
                   restaurant.city.getD ""
               else description)) := by
      unfold format_restaurant_response
      rw [if_neg (by simp [hne])]
      rw [format_loop_eq_map]
      simp
    refine ⟨hmain, ?_⟩
    rw [hmain]
    simp

/-- Witness for C8: the empty list yields exactly the no-matches message,
and a one-element list yields exactly two items. -/
theorem format_response_structure_witness :
    format_restaurant_response [] =
      [DisplayItem.message "죄송합니다. 조건에 맞는 레스토랑을 찾을 수 없습니다."] ∧
    (format_restaurant_response [sample_payload]).length = 1 + 1 :=
  ⟨(format_response_structure []).1 rfl,
    ((format_response_structure [sample_payload]).2 (by simp)).2⟩
